import Mathlib

/-!
Verification development for the reactive step-pipeline engine in
`src/py_cdp_reactive_flow_bot/engine.py`.

The Python values handled by the engine (scalars, mappings, sequences) are
embedded as the inductive type `Value`.  The pure pattern matcher
`_deep_pattern_match` and the routing predicate `_matches_pattern` are
translated directly.  The reactive pipeline built by `_build_execution_flow`
(`Observable.concat` over per-step observables followed by
`ops.flat_map(_pattern_based_routing)`) is embedded as a deterministic,
synchronous interpreter: the asynchronous actuator calls of
`_execute_single_step` are replaced by an oracle (a list of per-attempt
outcomes and durations), and each reactive operator of the source
(`ops.timeout`, `ops.retry`, `ops.do_action`, `concat`, `flat_map`) is given
its documented sequential semantics.  In particular `ops.retry(n)` of the RxPY
library re-subscribes the source at most `n` times in total, and the state
stream is the ordered list of emitted `StateUpdate` events.
-/

namespace PyCdpFlow

/-! Embedded Python values.  `ValueList` and `ValueDict` are unrolled list
types so that equality is derivable and kernel-reducible; `ValueDict` keeps
entries in insertion order, mirroring a Python dict with unique keys. -/
mutual
inductive Value where
  | none : Value
  | bool (b : Bool) : Value
  | int (n : Int) : Value
  | str (s : String) : Value
  | list (items : ValueList) : Value
  | dict (entries : ValueDict) : Value
deriving DecidableEq, Repr

inductive ValueList where
  | nil : ValueList
  | cons (head : Value) (tail : ValueList) : ValueList
deriving DecidableEq, Repr

inductive ValueDict where
  | nil : ValueDict
  | cons (key : String) (val : Value) (tail : ValueDict) : ValueDict
deriving DecidableEq, Repr
end

def ValueList.toList : ValueList → List Value
  | ValueList.nil => []
  | ValueList.cons d ds => d :: ds.toList

def ValueDict.toList : ValueDict → List (String × Value)
  | ValueDict.nil => []
  | ValueDict.cons k v ds => (k, v) :: ds.toList

def toValueList : List Value → ValueList
  | [] => ValueList.nil
  | v :: vs => ValueList.cons v (toValueList vs)

def toValueDict : List (String × Value) → ValueDict
  | [] => ValueDict.nil
  | (k, v) :: rest => ValueDict.cons k v (toValueDict rest)

/-- Build a dict value from a list of entries. -/
def Value.mkDict (l : List (String × Value)) : Value :=
  Value.dict (toValueDict l)

/-- Build a list value from a list of values. -/
def Value.mkList (l : List Value) : Value :=
  Value.list (toValueList l)

/-- Python `d.get(k)`: the value stored under `k`, or `None` when the key is
missing.  This is the lookup used by `_deep_pattern_match`. -/
def dictGet : ValueDict → String → Value
  | ValueDict.nil, _ => Value.none
  | ValueDict.cons k v rest, key => if k = key then v else dictGet rest key

/-- Key lookup that distinguishes a missing key (`Option.none`) from a key
stored with value `None`; used to state the containment reading of the spec. -/
def dictLookup : ValueDict → String → Option Value
  | ValueDict.nil, _ => Option.none
  | ValueDict.cons k v rest, key =>
      if k = key then Option.some v else dictLookup rest key

/-- Python truthiness of an embedded value. -/
def Value.truthy : Value → Bool
  | Value.none => false
  | Value.bool b => b
  | Value.int n => n != 0
  | Value.str s => s != ""
  | Value.list ValueList.nil => false
  | Value.list _ => true
  | Value.dict ValueDict.nil => false
  | Value.dict _ => true

def Value.isDict : Value → Bool
  | Value.dict _ => true
  | _ => false

def Value.isList : Value → Bool
  | Value.list _ => true
  | _ => false

/-- Python `result.get(k)` on a value known to be a mapping. -/
def valueGet : Value → String → Value
  | Value.dict es, k => dictGet es k
  | _, _ => Value.none

/-! Translation of `_deep_pattern_match` (engine.py lines 373-380).
`dpmEntries` unfolds the generator of line 376, `dpmItems` and `dpmExists`
unfold the `all`/`any` pair of line 378; the fallback case is the equality
test of line 380. -/
mutual

def deep_pattern_match : Value → Value → Bool
  | Value.dict ds, Value.dict ps => dpmEntries ds ps
  | Value.list ds, Value.list ps => dpmItems ds ps
  | d, p => d == p
termination_by _ p => (sizeOf p, 0, 0)

def dpmEntries : ValueDict → ValueDict → Bool
  | _, ValueDict.nil => true
  | ds, ValueDict.cons k v ps => deep_pattern_match (dictGet ds k) v && dpmEntries ds ps
termination_by _ ps => (sizeOf ps, 0, 0)

def dpmItems : ValueList → ValueList → Bool
  | _, ValueList.nil => true
  | ds, ValueList.cons p ps => dpmExists ds p && dpmItems ds ps
termination_by _ ps => (sizeOf ps, 0, 0)

def dpmExists : ValueList → Value → Bool
  | ValueList.nil, _ => false
  | ValueList.cons d ds, p => deep_pattern_match d p || dpmExists ds p
termination_by ds p => (sizeOf p, 1, sizeOf ds)

end

/-- The spec reading of the mapping case of the matcher: every pattern key
must be contained in the data mapping and its stored value must match.
Modelled from the spec sentence on mapping patterns, for comparison with
`deep_pattern_match`. -/
def specDictMatch (ds ps : ValueDict) : Prop :=
  ∀ kv ∈ ps.toList, ∃ v, dictLookup ds kv.1 = Option.some v ∧
    deep_pattern_match v kv.2 = true

/-- The `pattern` mapping of a `next_step_patterns` rule: the code reads its
keys `field` and `value` (engine.py lines 366-370). -/
structure MatchSpec where
  field : String
  value : Value
deriving DecidableEq, Repr

/-- Translation of `_matches_pattern` (engine.py lines 364-371). -/
def matchesPattern (result : Value) (p : MatchSpec) : Bool :=
  if p.field == "type" && valueGet result "type" == p.value then
    true
  else if p.field == "data" && (valueGet result "data").truthy then
    deep_pattern_match (valueGet result "data") p.value
  else
    false

/-- One entry of a `next_step_patterns` list. -/
structure PatternRule where
  pattern : MatchSpec
  goto_step : Nat
deriving DecidableEq, Repr

/-- First rule whose pattern matches the result, in declaration order
(the loop of engine.py lines 272-277). -/
def findRule (result : Value) : List PatternRule → Option PatternRule
  | [] => Option.none
  | r :: rs => if matchesPattern result r.pattern then Option.some r else findRule result rs

/-- The `TaskState` enum of engine.py lines 18-23. -/
inductive TaskState where
  | pending : TaskState
  | running : TaskState
  | success : TaskState
  | failed : TaskState
  | retrying : TaskState
deriving DecidableEq, Repr

/-- One event published on the state stream by `_emit_state_update`
(engine.py lines 382-391).  Events appear in emission order in the lists
below; the wall-clock timestamp field is not modelled. -/
structure StateUpdate where
  step_index : Nat
  state : TaskState
  result : Value
deriving DecidableEq, Repr

/-- The `max_retries` entry of a step dict: absent or an explicit number. -/
inductive RetryCfg where
  | default : RetryCfg
  | val (n : Nat) : RetryCfg
deriving DecidableEq, Repr

/-- The `timeout` entry of a step dict: absent, an explicit `None`, or an
explicit number of milliseconds. -/
inductive TimeoutCfg where
  | default : TimeoutCfg
  | null : TimeoutCfg
  | ms (n : Nat) : TimeoutCfg
deriving DecidableEq, Repr

/-- A step specification.  Kind-specific parameters that only feed the
result payload are kept as plain fields; `pattern_cfg` stands for the
`pattern` (resp. `condition`) sub-dict of a `wait_for_pattern`
(resp. `conditional`) step. -/
structure Step where
  kind : String
  url : String := ""
  selector : String := ""
  text : String := ""
  command : String := ""
  pattern_cfg : Value := Value.none
  max_retries : RetryCfg := RetryCfg.default
  timeout : TimeoutCfg := TimeoutCfg.default
  next_step_patterns : Option (List PatternRule) := Option.none
deriving Repr

/-- `step.get("max_retries", 3)` (engine.py line 143). -/
def effMaxRetries : RetryCfg → Nat
  | RetryCfg.default => 3
  | RetryCfg.val n => n

/-- The timeout policy derived from `step.get("timeout", 30000)` and the
guard `timeout != 0 and timeout is not None` of engine.py line 164:
`Option.none` means no deadline operator is applied. -/
def effDeadline : TimeoutCfg → Option Nat
  | TimeoutCfg.default => Option.some 30000
  | TimeoutCfg.null => Option.none
  | TimeoutCfg.ms n => if n = 0 then Option.none else Option.some n

/-- The step kinds dispatched by `_execute_single_step`
(engine.py lines 198-247). -/
def knownKinds : List String :=
  ["navigate", "click", "type", "wait_for_pattern", "extract_data",
   "conditional", "cdp_command"]

/-- Number of times the step source is subscribed: `ops.retry(max_retries)`
re-subscribes at most `max_retries` times in total, and the operator is only
applied when `max_retries > 0` (engine.py lines 172-176). -/
def attemptBudget (s : Step) : Nat :=
  let n := effMaxRetries s.max_retries
  if n = 0 then 1 else n

/-- Outcome of one actuator interaction, supplied by the oracle. -/
inductive ActOutcome where
  | ok (payload : Value) : ActOutcome
  | err (msg : String) : ActOutcome
deriving DecidableEq, Repr

/-- One oracle entry: how long the actuator call of this attempt would run
and what it would produce. -/
structure Attempt where
  duration : Nat
  outcome : ActOutcome
deriving DecidableEq, Repr

/-- Mutable execution context of a run: the oracle supply plus the
`current_step` counter and `last_result` of the `ExecutionContext`
(engine.py lines 99-103, 253-254). -/
structure World where
  oracle : List Attempt
  currentStep : Nat
  lastResult : Value
deriving DecidableEq, Repr

def popAttempt (w : World) : Attempt × World :=
  match w.oracle with
  | [] => (⟨0, ActOutcome.err "oracle exhausted"⟩, w)
  | a :: rest => (a, { w with oracle := rest })

/-- The result dict built by `_execute_single_step` for each known kind
(engine.py lines 198-247); the oracle payload stands for the data coming
back from the actuator. -/
def mkResult (s : Step) (payload : Value) : Value :=
  if s.kind == "navigate" then
    Value.mkDict [("type", Value.str "navigation"), ("url", Value.str s.url),
                  ("status", Value.str "success")]
  else if s.kind == "click" then
    Value.mkDict [("type", Value.str "click"), ("selector", Value.str s.selector),
                  ("status", Value.str "success")]
  else if s.kind == "type" then
    Value.mkDict [("type", Value.str "type"), ("selector", Value.str s.selector),
                  ("text", Value.str s.text), ("status", Value.str "success")]
  else if s.kind == "wait_for_pattern" then
    Value.mkDict [("type", Value.str "pattern_match"), ("pattern", s.pattern_cfg),
                  ("match", payload)]
  else if s.kind == "extract_data" then
    Value.mkDict [("type", Value.str "extraction"), ("data", payload)]
  else if s.kind == "conditional" then
    Value.mkDict [("type", Value.str "conditional"), ("condition", s.pattern_cfg),
                  ("result", payload)]
  else
    Value.mkDict [("type", Value.str "cdp"), ("command", Value.str s.command),
                  ("result", payload)]

/-- The `ValueError` message raised for an unknown step kind
(engine.py line 250). -/
def unknownMsg (s : Step) : String :=
  "未知的步骤类型: " ++ s.kind

/-- One attempt of a known-kind step once the oracle entry is drawn:
`_execute_single_step` emits `RUNNING`, then either builds the result,
updates the context and emits `SUCCESS`, or emits `FAILED` and re-raises;
the wrapper `execute_with_retry_state_update` emits a second `FAILED` for
the same error (engine.py lines 150-158, 187-263, read synchronously). -/
def runAttemptCore (s : Step) (i : Nat) (a : Attempt) (w : World) :
    List StateUpdate × Except String Value × World :=
  match a.outcome with
  | ActOutcome.ok payload =>
      let r := mkResult s payload
      ([⟨i, TaskState.running, Value.none⟩, ⟨i, TaskState.success, r⟩],
       Except.ok r,
       { w with currentStep := i, lastResult := r })
  | ActOutcome.err m =>
      ([⟨i, TaskState.running, Value.none⟩, ⟨i, TaskState.failed, Value.str m⟩,
        ⟨i, TaskState.failed, Value.str m⟩],
       Except.error m, w)

/-- One subscription of the deferred step source together with the
`ops.timeout` operator of engine.py lines 163-169: with a deadline in force,
an attempt whose actuator call outlasts the deadline is cancelled after its
`RUNNING` emission and surfaces as a timeout error; with no deadline the
duration is never consulted.  An unknown step kind raises before any
actuator interaction, so it consumes no oracle entry and cannot time out. -/
def runAttempt (s : Step) (i : Nat) (w : World) :
    List StateUpdate × Except String Value × World :=
  if knownKinds.contains s.kind then
    let (a, w1) := popAttempt w
    match effDeadline s.timeout with
    | Option.some t =>
        if a.duration > t then
          ([⟨i, TaskState.running, Value.none⟩], Except.error "Timeout", w1)
        else
          runAttemptCore s i a w1
    | Option.none => runAttemptCore s i a w1
  else
    let m := unknownMsg s
    ([⟨i, TaskState.running, Value.none⟩, ⟨i, TaskState.failed, Value.str m⟩,
      ⟨i, TaskState.failed, Value.str m⟩],
     Except.error m, w)

/-- `ops.retry` semantics: subscribe the source up to `k` times in total,
stopping at the first successful run; no state event is emitted by the
operator itself. -/
def runRetries (s : Step) (i : Nat) : Nat → World →
    List StateUpdate × Except String Value × World
  | 0, w => ([], Except.error "no attempt", w)
  | 1, w => runAttempt s i w
  | Nat.succ (Nat.succ k), w =>
      match runAttempt s i w with
      | (evs, Except.ok v, w1) => (evs, Except.ok v, w1)
      | (evs, Except.error _, w1) =>
          let (evs2, res2, w2) := runRetries s i (Nat.succ k) w1
          (evs ++ evs2, res2, w2)

/-- Terminal signal of an observable run. -/
inductive FlowTerm where
  | completed : FlowTerm
  | errored (msg : String) : FlowTerm
deriving DecidableEq, Repr

/-- Result of running an observable: state-stream events in emission order,
`on_next` items in order, the terminal signal, and the final context. -/
structure RunOut where
  events : List StateUpdate
  emitted : List Value
  term : FlowTerm
  world : World
deriving DecidableEq, Repr

/-- The full per-step observable of `_create_step_observable`
(engine.py lines 135-185): deferred attempt, optional timeout, optional
retry, then `ops.do_action` which re-emits a `RUNNING` update carrying the
result for every successful item (line 181). -/
def runStepObservable (s : Step) (i : Nat) (w : World) : RunOut :=
  match runRetries s i (attemptBudget s) w with
  | (evs, Except.ok r, w1) =>
      ⟨evs ++ [⟨i, TaskState.running, r⟩], [r], FlowTerm.completed, w1⟩
  | (evs, Except.error m, w1) =>
      ⟨evs, [], FlowTerm.errored m, w1⟩

/-- The execution flow of `_build_execution_flow` and
`_pattern_based_routing` (engine.py lines 122-133, 265-280):
`Observable.concat` subscribes every per-step observable in list order, and
`ops.flat_map` feeds each successful result to the routing decision.  When
the first matching rule of the current step fires, a fresh flow over
`all_steps[goto_step:]` is run (its steps re-indexed from 0) and the outer
concatenation then resumes with the next sequential step; when no rule
fires, the result itself is re-emitted (`Observable.just`).  The `fuel`
argument bounds the recursion depth of flow-in-flow nesting and steps; a
concrete run is given enough fuel to finish. -/
def runFlowAux : Nat → List Step → List Step → Nat → World → RunOut
  | 0, _, _, _, w => ⟨[], [], FlowTerm.errored "fuel exhausted", w⟩
  | _ + 1, _, [], _, w => ⟨[], [], FlowTerm.completed, w⟩
  | fuel + 1, allSteps, s :: rest, i, w =>
      let so := runStepObservable s i w
      match so.term, so.emitted with
      | FlowTerm.errored m, _ => ⟨so.events, [], FlowTerm.errored m, so.world⟩
      | FlowTerm.completed, [r] =>
          match allSteps[so.world.currentStep]? with
          | Option.none => ⟨so.events, [], FlowTerm.errored "IndexError", so.world⟩
          | Option.some cur =>
              match cur.next_step_patterns with
              | Option.some rules =>
                  match findRule r rules with
                  | Option.some rule =>
                      let sub := allSteps.drop rule.goto_step
                      let ro := runFlowAux fuel sub sub 0 so.world
                      (match ro.term with
                       | FlowTerm.errored m =>
                           ⟨so.events ++ ro.events, [], FlowTerm.errored m, ro.world⟩
                       | FlowTerm.completed =>
                           let ko := runFlowAux fuel allSteps rest (i + 1) ro.world
                           ⟨so.events ++ ro.events ++ ko.events,
                            ro.emitted ++ ko.emitted, ko.term, ko.world⟩)
                  | Option.none =>
                      let ko := runFlowAux fuel allSteps rest (i + 1) so.world
                      ⟨so.events ++ ko.events, r :: ko.emitted, ko.term, ko.world⟩
              | Option.none =>
                  let ko := runFlowAux fuel allSteps rest (i + 1) so.world
                  ⟨so.events ++ ko.events, r :: ko.emitted, ko.term, ko.world⟩
      | FlowTerm.completed, _ =>
          let ko := runFlowAux fuel allSteps rest (i + 1) so.world
          ⟨so.events ++ ko.events, ko.emitted, ko.term, ko.world⟩

/-- Run a playbook: the flow over its steps, with routing decisions taken
against the same step list. -/
def runFlow (fuel : Nat) (steps : List Step) (w : World) : RunOut :=
  runFlowAux fuel steps steps 0 w

/-- Initial context of `_execute_dsl_pipeline` (engine.py lines 99-103). -/
def initWorld (oracle : List Attempt) : World :=
  ⟨oracle, 0, Value.none⟩

/-- The `pattern` sub-dict consumed by `_wait_for_pattern`: its `type`,
`value` and `timeout` entries (engine.py lines 284-286). -/
structure WaitCfg where
  ptype : String
  value : String
  wTimeout : Nat := 5000
deriving DecidableEq, Repr

/-- Environment of one `_wait_for_pattern` call: whether the awaited
condition is met within the internal wait, the page url and regex re-check
for the `url` branch, and the boolean produced by a `custom` check. -/
structure WaitEnv where
  met : Bool
  currentUrl : String := ""
  reMatch : Bool := false
  checkResult : Bool := false
deriving DecidableEq, Repr

/-- Translation of `_wait_for_pattern` (engine.py lines 282-322).  The
`url` branch awaits `wait_for_function` with no exception handler, so an
unmet condition surfaces the timeout error of the wait; the `content` and
`element` branches wrap their waits in try/except and report
`matched: False`; the `custom` branch returns whatever the check produced.
A `ptype` outside the four branches falls off the end of the Python
function and returns `None`. -/
def waitForPattern (cfg : WaitCfg) (env : WaitEnv) : Except String Value :=
  if cfg.ptype == "url" then
    if env.met then
      Except.ok (Value.mkDict [("type", Value.str "url"),
        ("matched", Value.bool env.reMatch), ("url", Value.str env.currentUrl)])
    else
      Except.error "TimeoutError: waiting for function failed"
  else if cfg.ptype == "content" then
    Except.ok (Value.mkDict [("type", Value.str "content"),
      ("matched", Value.bool env.met), ("content", Value.str cfg.value)])
  else if cfg.ptype == "element" then
    Except.ok (Value.mkDict [("type", Value.str "element"),
      ("matched", Value.bool env.met), ("selector", Value.str cfg.value)])
  else if cfg.ptype == "custom" then
    Except.ok (Value.mkDict [("type", Value.str "custom"),
      ("matched", Value.bool env.checkResult)])
  else
    Except.ok Value.none

/-- The three events one failed attempt of an unknown-kind step leaves on the
state stream: the `RUNNING` of the attempt start and the two `FAILED`
emissions of `_execute_single_step` and its wrapper. -/
def unknownBlock (s : Step) (i : Nat) : List StateUpdate :=
  [⟨i, TaskState.running, Value.none⟩,
   ⟨i, TaskState.failed, Value.str (unknownMsg s)⟩,
   ⟨i, TaskState.failed, Value.str (unknownMsg s)⟩]

/-- An oracle entry for an instantly succeeding actuator call with an unused
payload. -/
def okA : Attempt := ⟨0, ActOutcome.ok Value.none⟩

/-- Concrete playbook for the ordering check: one navigate step with default
retry and timeout settings. -/
def c5Step : Step := { kind := "navigate", url := "http://a" }

/-- The result dict `c5Step` produces on success. -/
def c5Result : Value :=
  Value.mkDict [("type", Value.str "navigation"), ("url", Value.str "http://a"),
                ("status", Value.str "success")]

/-- Run of the single-step playbook whose only attempt succeeds. -/
def c5Out : RunOut := runFlow 3 [c5Step] (initWorld [okA])

/-- Concrete step with `max_retries = 2`. -/
def c2Step : Step :=
  { kind := "navigate", url := "http://a", max_retries := RetryCfg.val 2 }

/-- Run of `c2Step` against an oracle that fails the first two actuator
calls and would succeed on a third call. -/
def c2Out : RunOut :=
  runFlow 3 [c2Step]
    (initWorld [⟨0, ActOutcome.err "boom"⟩, ⟨0, ActOutcome.err "boom"⟩, okA])

/-- Concrete step with `max_retries = 0`. -/
def c2bStep : Step :=
  { kind := "navigate", url := "http://a", max_retries := RetryCfg.val 0 }

/-- Run of `c2bStep` against an oracle that fails the single attempt. -/
def c2bOut : RunOut := runFlow 3 [c2bStep] (initWorld [⟨0, ActOutcome.err "boom"⟩])

/-- Routing rule of the jump scenario: on a result whose `type` equals
`navigation`, go to step index 3. -/
def c1Rule : PatternRule := ⟨⟨"type", Value.str "navigation"⟩, 3⟩

/-- Four-step playbook in which step index 1 carries a rule targeting
index 3, so the claim expects index 2 to be skipped. -/
def c1Steps : List Step :=
  [ { kind := "navigate", url := "http://s0" },
    { kind := "navigate", url := "http://s1",
      next_step_patterns := Option.some [c1Rule] },
    { kind := "navigate", url := "http://s2" },
    { kind := "navigate", url := "http://s3" } ]

/-- Run of the jump playbook with every actuator call succeeding. -/
def c1Out : RunOut := runFlow 10 c1Steps (initWorld (List.replicate 8 okA))

/-- Concrete step with a kind outside the dispatched set and
`max_retries = 2`. -/
def c7Step : Step := { kind := "frobnicate", max_retries := RetryCfg.val 2 }

/-- The per-step observable of `c7Step`. -/
def c7Out : RunOut := runStepObservable c7Step 0 (initWorld [okA])

/-! Characterizations of the pattern matcher helpers, shared by the claim
theorems below. -/

theorem dpmEntries_iff : (ds ps : ValueDict) →
    (dpmEntries ds ps = true ↔
      ∀ kv ∈ ps.toList, deep_pattern_match (dictGet ds kv.1) kv.2 = true)
  | ds, ValueDict.nil => by simp [dpmEntries, ValueDict.toList]
  | ds, ValueDict.cons k v t => by
      have ih := dpmEntries_iff ds t
      simp [dpmEntries, ValueDict.toList, Bool.and_eq_true, ih,
        List.forall_mem_cons]

theorem dpmExists_iff : (ds : ValueList) → (p : Value) →
    (dpmExists ds p = true ↔ ∃ d ∈ ds.toList, deep_pattern_match d p = true)
  | ValueList.nil, p => by simp [dpmExists, ValueList.toList]
  | ValueList.cons d ds, p => by
      have ih := dpmExists_iff ds p
      simp [dpmExists, ValueList.toList, Bool.or_eq_true, ih, List.mem_cons,
        exists_eq_or_imp]

theorem dpmItems_iff : (ds : ValueList) → (ps : ValueList) →
    (dpmItems ds ps = true ↔
      ∀ p ∈ ps.toList, ∃ d ∈ ds.toList, deep_pattern_match d p = true)
  | ds, ValueList.nil => by simp [dpmItems, ValueList.toList]
  | ds, ValueList.cons p t => by
      have ih := dpmItems_iff ds t
      simp [dpmItems, ValueList.toList, Bool.and_eq_true, ih,
        List.forall_mem_cons, dpmExists_iff]

theorem attemptBudget_pos (s : Step) : 0 < attemptBudget s := by
  simp only [attemptBudget]
  split <;> omega

theorem runRetries_unknown (s : Step) (i : Nat)
    (h : s.kind ∉ knownKinds) : (k : Nat) → (w : World) →
    runRetries s i (k + 1) w =
      ((List.replicate (k + 1) (unknownBlock s i)).flatten,
       Except.error (unknownMsg s), w)
  | 0, w => by simp [runRetries, runAttempt, h, unknownBlock]
  | Nat.succ k, w => by
      have ih := runRetries_unknown s i h k w
      simp [runRetries, runAttempt, h, ih, unknownBlock, List.replicate_succ,
        List.flatten_cons]

/-- C1: the claim says a matched `next_step_patterns` rule makes execution
continue from the goto index with the steps in between skipped and no event
for a skipped index.  In the code, `Observable.concat` subscribes every
remaining per-step observable regardless of the routing decision, and the
matched rule only splices an extra flow (re-indexed from 0) into the
stream: running the four-step playbook in which step 1 jumps to index 3
completes with events for index 2 present (three of them), and step 3 is
executed twice, once re-indexed as 0 inside the nested flow. -/
theorem C1_jump_does_not_skip :
    c1Out.term = FlowTerm.completed ∧
    c1Out.events.map (fun e => (e.step_index, e.state)) =
      [(0, TaskState.running), (0, TaskState.success), (0, TaskState.running),
       (1, TaskState.running), (1, TaskState.success), (1, TaskState.running),
       (0, TaskState.running), (0, TaskState.success), (0, TaskState.running),
       (2, TaskState.running), (2, TaskState.success), (2, TaskState.running),
       (3, TaskState.running), (3, TaskState.success), (3, TaskState.running)] ∧
    c1Out.events.countP (fun e => e.step_index == 2) = 3 := by
  decide

/-- C2: the claim expects a step with `max_retries = 2` that fails twice to
succeed on a third attempt, with exactly two `Retrying` events.  In the
code, `ops.retry(2)` re-subscribes the source at most 2 times in total, and
`TaskState.RETRYING` is never emitted anywhere: against an oracle that
fails twice and would succeed on the third call, the run fails, makes only
2 attempts (the third oracle entry is left unconsumed), and emits no
`Retrying` and no `Success` event.  The `max_retries = 0` half of the claim
does hold: one failing attempt, no `Retrying`, run failed. -/
theorem C2_retry_and_events_diverge :
    c2Out.term = FlowTerm.errored "boom" ∧
    c2Out.events.countP (fun e => e.state == TaskState.retrying) = 0 ∧
    c2Out.events.countP (fun e => e.state == TaskState.success) = 0 ∧
    c2Out.events.countP (fun e => e.state == TaskState.running) = 2 ∧
    c2Out.world.oracle.length = 1 ∧
    c2bOut.term = FlowTerm.errored "boom" ∧
    c2bOut.events.countP (fun e => e.state == TaskState.retrying) = 0 := by
  decide

/-- C3: the timeout policy of `_create_step_observable`.  Defaults are
`max_retries = 3` and `timeout = 30000`; a timeout of exactly 0 or an
explicit `None` yields no deadline, in which case the attempt outcome is
independent of how long the actuator call runs; a positive timeout `t`
yields deadline `t`, and the attempt is cancelled as a timeout failure
exactly when its duration exceeds `t`, otherwise it runs normally. -/
theorem C3_timeout_policy :
    (effMaxRetries RetryCfg.default = 3 ∧
     effDeadline TimeoutCfg.default = Option.some 30000) ∧
    (effDeadline (TimeoutCfg.ms 0) = Option.none ∧
     effDeadline TimeoutCfg.null = Option.none) ∧
    (∀ t : Nat, t ≠ 0 → effDeadline (TimeoutCfg.ms t) = Option.some t) ∧
    (∀ (s : Step) (i d₁ d₂ : Nat) (o : ActOutcome) (rest : List Attempt)
        (cs : Nat) (lr : Value),
       knownKinds.contains s.kind = true →
       effDeadline s.timeout = Option.none →
       runAttempt s i ⟨⟨d₁, o⟩ :: rest, cs, lr⟩ =
         runAttempt s i ⟨⟨d₂, o⟩ :: rest, cs, lr⟩) ∧
    (∀ (s : Step) (i t : Nat) (a : Attempt) (rest : List Attempt)
        (cs : Nat) (lr : Value),
       effDeadline s.timeout = Option.some t →
       knownKinds.contains s.kind = true →
       runAttempt s i ⟨a :: rest, cs, lr⟩ =
         if a.duration > t then
           ([⟨i, TaskState.running, Value.none⟩], Except.error "Timeout",
            ⟨rest, cs, lr⟩)
         else runAttemptCore s i a ⟨rest, cs, lr⟩) := by
  refine ⟨⟨rfl, rfl⟩, ⟨rfl, rfl⟩, ?_, ?_, ?_⟩
  · intro t ht
    simp [effDeadline, ht]
  · intro s i d₁ d₂ o rest cs lr hk hd
    have hk' : s.kind ∈ knownKinds := by simpa using hk
    simp [runAttempt, hk', popAttempt, hd]
    cases o <;> simp [runAttemptCore]
  · intro s i t a rest cs lr hd hk
    have hk' : s.kind ∈ knownKinds := by simpa using hk
    simp [runAttempt, hk', popAttempt, hd]

/-- C3 witness: with `timeout = 0` an attempt blocking for an arbitrarily
long duration behaves exactly like a short one, and with `timeout = 10` an
attempt of duration 11 is cancelled as a timeout failure. -/
theorem C3_timeout_policy_witness :
    runAttempt { kind := "navigate", timeout := TimeoutCfg.ms 0 } 0
      ⟨[⟨999999999, ActOutcome.ok Value.none⟩], 0, Value.none⟩ =
    runAttempt { kind := "navigate", timeout := TimeoutCfg.ms 0 } 0
      ⟨[⟨5, ActOutcome.ok Value.none⟩], 0, Value.none⟩ ∧
    runAttempt { kind := "navigate", timeout := TimeoutCfg.ms 10 } 0
      ⟨[⟨11, ActOutcome.ok Value.none⟩], 0, Value.none⟩ =
      ([⟨0, TaskState.running, Value.none⟩], Except.error "Timeout",
       ⟨[], 0, Value.none⟩) := by
  constructor
  · exact C3_timeout_policy.2.2.2.1 _ 0 999999999 5 _ [] 0 _ (by decide) rfl
  · have := C3_timeout_policy.2.2.2.2
      { kind := "navigate", timeout := TimeoutCfg.ms 10 } 0 10
      ⟨11, ActOutcome.ok Value.none⟩ [] 0 Value.none rfl (by decide)
    simpa using this

/-- C4 counterexample: the claim requires the data mapping to contain every
pattern key, but `_deep_pattern_match` looks keys up with `data.get(k)`, so
the empty mapping matches the pattern mapping with the single entry
`a: None` even though it does not contain the key `a`. -/
theorem C4_missing_key_counterexample :
    deep_pattern_match (Value.dict ValueDict.nil)
      (Value.dict (ValueDict.cons "a" Value.none ValueDict.nil)) = true ∧
    ¬ specDictMatch ValueDict.nil (ValueDict.cons "a" Value.none ValueDict.nil) := by
  constructor
  · simp [deep_pattern_match, dpmEntries, dictGet]
  · intro h
    rcases h ("a", Value.none) (by simp [ValueDict.toList]) with ⟨v, hv, _⟩
    simp [dictLookup] at hv

/-- C4 amended: for mapping pattern against mapping data, the match
succeeds iff every pattern entry matches the value found by `data.get(key)`
where a missing key is looked up as `None`; in particular extra data keys
are ignored and the empty pattern mapping matches every mapping. -/
theorem C4_dict_match_amended :
    (∀ ds ps : ValueDict,
       deep_pattern_match (Value.dict ds) (Value.dict ps) = true ↔
         ∀ kv ∈ ps.toList, deep_pattern_match (dictGet ds kv.1) kv.2 = true) ∧
    (∀ ds : ValueDict,
       deep_pattern_match (Value.dict ds) (Value.dict ValueDict.nil) = true) := by
  constructor
  · intro ds ps
    simp only [deep_pattern_match]
    exact dpmEntries_iff ds ps
  · intro ds
    simp [deep_pattern_match, dpmEntries]

/-- C4 witness: the empty pattern mapping matches the empty data mapping. -/
theorem C4_dict_match_amended_witness :
    deep_pattern_match (Value.dict ValueDict.nil) (Value.dict ValueDict.nil) = true :=
  C4_dict_match_amended.2 ValueDict.nil

/-- C5: the claim says the per-step event order is `Running`, then zero or
more `Failed`/`Retrying` pairs, then exactly one terminal `Success` or
`Failed`.  In the code, `ops.do_action` re-emits a `RUNNING` update
carrying the result after the `SUCCESS` emission of
`_execute_single_step`: a single step succeeding on its first attempt
leaves the stream `Running`, `Success`, `Running` — the terminal event is
not last. -/
theorem C5_event_order_diverges :
    c5Out.term = FlowTerm.completed ∧
    c5Out.events =
      [⟨0, TaskState.running, Value.none⟩,
       ⟨0, TaskState.success, c5Result⟩,
       ⟨0, TaskState.running, c5Result⟩] := by
  decide

/-- C6: for sequence pattern against sequence data the match succeeds iff
every pattern element matches at least one data element (existential, not
positional, duplicates independently satisfiable), and the empty pattern
sequence matches every sequence. -/
theorem C6_sequence_match :
    (∀ ds ps : ValueList,
       deep_pattern_match (Value.list ds) (Value.list ps) = true ↔
         ∀ p ∈ ps.toList, ∃ d ∈ ds.toList, deep_pattern_match d p = true) ∧
    (∀ ds : ValueList,
       deep_pattern_match (Value.list ds) (Value.list ValueList.nil) = true) := by
  constructor
  · intro ds ps
    simp only [deep_pattern_match]
    exact dpmItems_iff ds ps
  · intro ds
    simp [deep_pattern_match, dpmItems]

/-- C6 witness: the empty pattern sequence matches the empty sequence. -/
theorem C6_sequence_match_witness :
    deep_pattern_match (Value.list ValueList.nil) (Value.list ValueList.nil) = true :=
  C6_sequence_match.2 ValueList.nil

/-- C7 counterexample: the claim says an unknown step kind is never
retried.  Running the per-step observable of a step of kind `frobnicate`
with `max_retries = 2` executes the step body twice — two `RUNNING`
emissions, each followed by the two `FAILED` emissions of the raised
configuration error — before the failure becomes terminal. -/
theorem C7_unknown_kind_retried :
    c7Out.events.map (fun e => e.state) =
      [TaskState.running, TaskState.failed, TaskState.failed,
       TaskState.running, TaskState.failed, TaskState.failed] ∧
    c7Out.events.countP (fun e => e.state == TaskState.running) = 2 ∧
    c7Out.term = FlowTerm.errored (unknownMsg c7Step) := by
  decide

/-- C7 amended: an unknown step kind raises a configuration error on every
attempt, the error passes through the ordinary retry pipeline — the step is
re-attempted up to the same attempt budget as any other failure — and once
the budget is exhausted the error is terminal: a flow whose next step has
an unknown kind ends errored with that message. -/
theorem C7_unknown_kind_amended (s : Step) (i : Nat) (w : World)
    (h : knownKinds.contains s.kind = false) :
    runStepObservable s i w =
      ⟨(List.replicate (attemptBudget s) (unknownBlock s i)).flatten, [],
       FlowTerm.errored (unknownMsg s), w⟩ ∧
    ∀ (fuel j : Nat) (allSteps rest : List Step),
      runFlowAux (fuel + 1) allSteps (s :: rest) j w =
        ⟨(List.replicate (attemptBudget s) (unknownBlock s j)).flatten, [],
         FlowTerm.errored (unknownMsg s), w⟩ := by
  have h' : s.kind ∉ knownKinds := by simpa using h
  have hstep : ∀ j : Nat, runStepObservable s j w =
      ⟨(List.replicate (attemptBudget s) (unknownBlock s j)).flatten, [],
       FlowTerm.errored (unknownMsg s), w⟩ := by
    intro j
    obtain ⟨m, hm⟩ : ∃ m, attemptBudget s = m + 1 := by
      have := attemptBudget_pos s
      exact ⟨attemptBudget s - 1, by omega⟩
    rw [runStepObservable, hm, runRetries_unknown s j h' m w]
  refine ⟨hstep i, ?_⟩
  intro fuel j allSteps rest
  simp [runFlowAux, hstep j]

/-- C7 witness: the amended statement evaluated on the concrete
`frobnicate` step. -/
theorem C7_unknown_kind_amended_witness :
    knownKinds.contains "frobnicate" = false ∧
    runStepObservable c7Step 0 (initWorld [okA]) =
      ⟨(List.replicate (attemptBudget c7Step) (unknownBlock c7Step 0)).flatten,
       [], FlowTerm.errored (unknownMsg c7Step), initWorld [okA]⟩ :=
  ⟨by decide, (C7_unknown_kind_amended c7Step 0 (initWorld [okA]) (by decide)).1⟩

/-- C8 counterexample: the claim says no condition kind raises on an unmet
condition, but the `url` branch of `_wait_for_pattern` awaits its wait with
no exception handler, so an unmet url condition surfaces the timeout error
of the wait instead of `matched: false`. -/
theorem C8_url_unmet_raises :
    waitForPattern ⟨"url", "pat", 5000⟩ ⟨false, "", false, false⟩ =
      Except.error "TimeoutError: waiting for function failed" := by
  rfl

/-- C8 amended: for the kinds `content` and `element` an unmet condition
never raises and yields a result with `matched` equal to false, and the
`custom` kind returns the boolean of the user check without raising; only
the `url` kind raises on an unmet condition. -/
theorem C8_wait_amended (cfg : WaitCfg) (env : WaitEnv) :
    ((cfg.ptype = "content" ∨ cfg.ptype = "element") → env.met = false →
       ∃ v, waitForPattern cfg env = Except.ok v ∧
         valueGet v "matched" = Value.bool false) ∧
    (cfg.ptype = "custom" →
       ∃ v, waitForPattern cfg env = Except.ok v ∧
         valueGet v "matched" = Value.bool env.checkResult) := by
  obtain ⟨pt, v, t⟩ := cfg
  constructor
  · rintro (h | h) hm <;> subst h <;>
      exact ⟨_, rfl, by simp [valueGet, Value.mkDict, toValueDict, dictGet, hm]⟩
  · intro h
    subst h
    exact ⟨_, rfl, by simp [valueGet, Value.mkDict, toValueDict, dictGet]⟩

/-- C8 witness: an unmet `content` condition returns ok with
`matched: false`. -/
theorem C8_wait_amended_witness :
    ∃ v, waitForPattern ⟨"content", "needle", 5000⟩ ⟨false, "", false, false⟩ =
      Except.ok v ∧ valueGet v "matched" = Value.bool false :=
  (C8_wait_amended ⟨"content", "needle", 5000⟩ ⟨false, "", false, false⟩).1
    (Or.inl rfl) rfl

/-- C9: the pattern matcher is a total function on the embedded values;
mismatched shapes — mapping pattern against non-mapping data, sequence
pattern against non-sequence data — always yield false, every remaining
combination falls back to the plain equality test, and `None` is a
legitimate match target compared by equality. -/
theorem C9_matcher_total_shapes (d p : Value) :
    (p.isDict = true → d.isDict = false → deep_pattern_match d p = false) ∧
    (p.isList = true → d.isList = false → deep_pattern_match d p = false) ∧
    ((p.isDict && d.isDict) = false → (p.isList && d.isList) = false →
       deep_pattern_match d p = (d == p)) ∧
    deep_pattern_match Value.none Value.none = true := by
  cases d <;> cases p <;>
    simp [deep_pattern_match, Value.isDict, Value.isList, beq_iff_eq]

/-- C9 witness: a mapping pattern against a scalar datum and a sequence
pattern against a string datum both yield false, and `None` matches
`None`. -/
theorem C9_matcher_total_shapes_witness :
    deep_pattern_match (Value.int 1) (Value.dict ValueDict.nil) = false ∧
    deep_pattern_match (Value.str "x") (Value.list ValueList.nil) = false ∧
    deep_pattern_match Value.none Value.none = true :=
  ⟨(C9_matcher_total_shapes (Value.int 1) (Value.dict ValueDict.nil)).1 rfl rfl,
   (C9_matcher_total_shapes (Value.str "x") (Value.list ValueList.nil)).2.1 rfl rfl,
   (C9_matcher_total_shapes Value.none Value.none).2.2.2⟩

/-- C10: `_matches_pattern` matches exactly when the rule field is `type`
and the result `type` entry equals the rule value, or the rule field is
`data` and the result `data` entry is present, truthy and deep-matches the
rule value; in particular a `data` rule never matches a result whose `data`
entry is the empty mapping — even against the empty pattern mapping — and
any other field value never matches. -/
theorem C10_matches_pattern_characterization :
    (∀ (es : ValueDict) (p : MatchSpec),
       matchesPattern (Value.dict es) p = true ↔
         (p.field = "type" ∧ dictGet es "type" = p.value) ∨
         (p.field = "data" ∧ (dictGet es "data").truthy = true ∧
            deep_pattern_match (dictGet es "data") p.value = true)) ∧
    (∀ (es : ValueDict) (p : MatchSpec), p.field = "data" →
       dictGet es "data" = Value.dict ValueDict.nil →
       matchesPattern (Value.dict es) p = false) ∧
    matchesPattern (Value.mkDict [("data", Value.mkDict [])])
      ⟨"data", Value.mkDict []⟩ = false := by
  refine ⟨?_, ?_, by decide⟩
  · intro es p
    by_cases h1 : p.field = "type"
    · by_cases h2 : dictGet es "type" = p.value
      · simp [matchesPattern, valueGet, h1, h2]
      · simp [matchesPattern, valueGet, h1, h2, beq_iff_eq]
    · by_cases h3 : p.field = "data"
      · by_cases h4 : (dictGet es "data").truthy
        · simp [matchesPattern, valueGet, h1, h3, h4, beq_iff_eq]
        · simp [matchesPattern, valueGet, h1, h3, h4, beq_iff_eq]
      · simp [matchesPattern, valueGet, h1, h3, beq_iff_eq]
  · intro es p h1 h2
    simp [matchesPattern, valueGet, h1, h2, beq_iff_eq, Value.truthy]

/-- C10 witness: a `data` rule against a result whose `data` entry is the
empty mapping does not match, here with a non-empty result dict and a
non-trivial rule value. -/
theorem C10_matches_pattern_characterization_witness :
    matchesPattern (Value.mkDict [("x", Value.int 1), ("data", Value.mkDict [])])
      ⟨"data", Value.str "q"⟩ = false :=
  C10_matches_pattern_characterization.2.1
    (toValueDict [("x", Value.int 1), ("data", Value.mkDict [])])
    ⟨"data", Value.str "q"⟩ rfl (by decide)

end PyCdpFlow
